import Mathlib

/-!
Verification of the zHESSk chess-move proving pipeline.

The repository contains three SP1 guest programs (`working-sp1-chess`,
`sp1-chess-v2`, `sp1-chess-validator`), their host driver scripts, and a
board-aware placeholder validator (`programs/chess-validator/src/lib.rs`).
This file embeds those components shallowly:

* `u8` and `u32` values are `Nat` with explicit `% 2 ^ 32` where Rust
  release-mode wrapping matters;
* the guest commit streams and the host reads of `proof.public_values`
  are modelled byte-for-byte (bincode layout: `bool` and `u8` one byte,
  `u32` four little-endian bytes);
* fallible array indexing is `Option`;
* the host drivers' `.expect` calls are `Except` error exits.
-/

namespace ZkChess

/-! ## programs/chess-validator/src/lib.rs (board-aware validator) -/

/-- `ChessMoveInput` from `programs/chess-validator/src/lib.rs`.
`board_state : [i8; 64]` is a list of signed piece codes (length 64 where
it matters), `move_from`/`move_to` are `u8`, `move_number` a `u32`,
`player_turn` a `u8`. -/
structure ChessMoveInput where
  board_state : List Int
  move_from : Nat
  move_to : Nat
  move_number : Nat
  player_turn : Nat
deriving DecidableEq

/-- `ChessMoveOutput` from `programs/chess-validator/src/lib.rs`:
`is_valid`, `new_board_state : [i8; 64]`, `game_status : u8`. -/
structure ChessMoveOutput where
  is_valid : Bool
  new_board_state : List Int
  game_status : Nat
deriving DecidableEq

/-- `basic_move_validation`: `move_from < 64 && move_to < 64 && move_from != move_to`. -/
def basic_move_validation (input : ChessMoveInput) : Bool :=
  decide (input.move_from < 64) && decide (input.move_to < 64) &&
    decide (input.move_from ≠ input.move_to)

/-- `apply_move`: copies the board, reads the piece at `move_from`, zeroes
`move_from`, writes the piece at `move_to`.  Rust indexing panics out of
bounds, so the embedding returns `none` there. -/
def apply_move (input : ChessMoveInput) : Option (List Int) :=
  if h : input.move_from < input.board_state.length ∧
      input.move_to < input.board_state.length then
    let piece := input.board_state.get ⟨input.move_from, h.1⟩
    some ((input.board_state.set input.move_from 0).set input.move_to piece)
  else
    none

/-- `validate_chess_move`: validity via `basic_move_validation`; on success
the moved board, otherwise the input board unchanged; `game_status = 0`. -/
def validate_chess_move (input : ChessMoveInput) : Option ChessMoveOutput :=
  if basic_move_validation input then
    (apply_move input).map fun nb => ⟨true, nb, 0⟩
  else
    some ⟨false, input.board_state, 0⟩

/-! ## Guest programs: committed public values as byte streams.

`sp1_zkvm::io::commit` serialises each value into the public-values
stream: `bool` and `u8` as one byte, `u32` as four little-endian bytes. -/

/-- One committed `bool`: a single byte, 1 for `true`, 0 for `false`. -/
def commitBool (b : Bool) : List Nat :=
  [if b then 1 else 0]

/-- One committed `u8`: a single byte. -/
def commitU8 (n : Nat) : List Nat :=
  [n % 256]

/-- One committed `u32`: four little-endian bytes. -/
def commitU32 (n : Nat) : List Nat :=
  [n % 256, n / 256 % 256, n / 65536 % 256, n / 16777216 % 256]

/-! ### working-sp1-chess/program/src/main.rs -/

/-- The `is_valid` computed by `working-sp1-chess/program`:
`(from_square < 64 && to_square < 64) && from_square != to_square && move_number > 0`. -/
def working_is_valid (from_square to_square move_number : Nat) : Bool :=
  (decide (from_square < 64) && decide (to_square < 64)) &&
    decide (from_square ≠ to_square) && decide (move_number > 0)

/-- The checksum of `working-sp1-chess/program`:
`from_square as u32 + to_square as u32 + move_number` in wrapping `u32`
arithmetic. -/
def working_checksum (from_square to_square move_number : Nat) : Nat :=
  (from_square + to_square + move_number) % 2 ^ 32

/-- The public-values stream committed by `working-sp1-chess/program`:
`is_valid`, `from_square`, `to_square`, `move_number`, `checksum`, in that
order. -/
def workingGuestCommits (from_square to_square move_number : Nat) : List Nat :=
  commitBool (working_is_valid from_square to_square move_number) ++
    commitU8 from_square ++ commitU8 to_square ++
    commitU32 move_number ++
    commitU32 (working_checksum from_square to_square move_number)

/-! ### sp1-chess-v2/program/src/main.rs -/

/-- `validate_chess_move` of `sp1-chess-v2/program`:
`if from >= 64 || to >= 64 || from == to { false } else { true }`.
It takes no `move_number`. -/
def v2_validate_chess_move (from_square to_square : Nat) : Bool :=
  if decide (from_square ≥ 64) || decide (to_square ≥ 64) ||
      (from_square == to_square) then
    false
  else
    true

/-- The public-values stream committed by `sp1-chess-v2/program`:
`is_valid_move`, `from_square`, `to_square`, `move_number` — no checksum. -/
def v2GuestCommits (from_square to_square move_number : Nat) : List Nat :=
  commitBool (v2_validate_chess_move from_square to_square) ++
    commitU8 from_square ++ commitU8 to_square ++ commitU32 move_number

/-! ### sp1-chess-validator/program/src/main.rs -/

/-- The `is_valid` of `sp1-chess-validator/program`:
`from != to && from < 64 && to < 64`.  `move_number` is never read. -/
def min_is_valid (from_square to_square : Nat) : Bool :=
  decide (from_square ≠ to_square) && decide (from_square < 64) &&
    decide (to_square < 64)

/-- The public-values stream committed by `sp1-chess-validator/program`:
only `is_valid`. -/
def minGuestCommits (from_square to_square : Nat) : List Nat :=
  commitBool (min_is_valid from_square to_square)

/-! ## The spec's validation predicate (for refinement comparison).

`is_valid = (from ≠ to) ∧ (from, to ∈ [0,64)) ∧ (move_number ≥ 1)`. -/

/-- The spec's validation predicate, written from the spec's words. -/
def specValid (from_square to_square move_number : Nat) : Bool :=
  decide (from_square ≠ to_square) && decide (from_square < 64) &&
    decide (to_square < 64) && decide (move_number ≥ 1)

/-! ## Host side: working-sp1-chess/script/src/main.rs

The script writes the three inputs, proves, verifies, then reads back
`bool, u8, u8, u32, u32` from `proof.public_values` in that order and
prints the result record. -/

/-- Read one bincode `bool` from the byte stream (one byte, 0 or 1). -/
def readBool : List Nat → Option (Bool × List Nat)
  | 0 :: rest => some (false, rest)
  | 1 :: rest => some (true, rest)
  | _ => none

/-- Read one `u8` from the byte stream. -/
def readU8 : List Nat → Option (Nat × List Nat)
  | b :: rest => some (b, rest)
  | _ => none

/-- Read one little-endian `u32` from the byte stream. -/
def readU32 : List Nat → Option (Nat × List Nat)
  | b0 :: b1 :: b2 :: b3 :: rest =>
      some (b0 + 256 * b1 + 65536 * b2 + 16777216 * b3, rest)
  | _ => none

/-- The five public fields the working-sp1-chess host reads back:
`is_valid`, `from_verified`, `to_verified`, `move_num_verified`, `checksum`. -/
structure DecodedOutput where
  is_valid : Bool
  from_square : Nat
  to_square : Nat
  move_number : Nat
  checksum : Nat
deriving DecidableEq

/-- The working-sp1-chess host's sequence of `proof.public_values.read`
calls: `bool`, `u8`, `u8`, `u32`, `u32`, in that order; a truncated stream
fails to decode. -/
def hostDecode (bytes : List Nat) : Option DecodedOutput := do
  let (isv, r1) ← readBool bytes
  let (f, r2) ← readU8 r1
  let (t, r3) ← readU8 r2
  let (m, r4) ← readU32 r3
  let (c, _r5) ← readU32 r4
  pure ⟨isv, f, t, m, c⟩

/-- Host-side failure exits (`.expect` calls) of the driver scripts. -/
inductive HostError where
  | ProvingFailure
  | VerificationFailure
  | DecodeFailure
deriving DecidableEq

/-- The result record the working-sp1-chess script prints.
`verified` is the value printed on the `PROOF_VERIFIED:` line.  The
script prints `is_valid` there (line 83: `PROOF_VERIFIED:{is_valid}`),
which the embedding reproduces faithfully. -/
structure Report where
  verified : Bool
  output : DecodedOutput
deriving DecidableEq

/-- The control flow of `working-sp1-chess/script/src/main.rs` after the
inputs are fixed: `prove` (its success is the `proveOk` input, the backend
being opaque), then `verify` (success `verifyOk`), each exiting via
`.expect` on failure; only then are the public values read and the result
record printed. -/
def orchestrate (proveOk verifyOk : Bool) (from_square to_square move_number : Nat) :
    Except HostError Report :=
  if proveOk = false then
    Except.error HostError.ProvingFailure
  else if verifyOk = false then
    Except.error HostError.VerificationFailure
  else
    match hostDecode (workingGuestCommits from_square to_square move_number) with
    | none => Except.error HostError.DecodeFailure
    | some out => Except.ok ⟨out.is_valid, out⟩

/-- The result record of `sp1-chess-v2/script/src/main.rs`: it prints
`PROOF_VERIFIED:true` (reached only after `verify` succeeded) and reads no
public values. -/
structure V2Report where
  verified : Bool
deriving DecidableEq

/-- The control flow of `sp1-chess-v2/script/src/main.rs`: prove, verify
(each exiting via `.expect` on failure), then print the record with
`verified = true`. -/
def orchestrateV2 (proveOk verifyOk : Bool) : Except HostError V2Report :=
  if proveOk = false then
    Except.error HostError.ProvingFailure
  else if verifyOk = false then
    Except.error HostError.VerificationFailure
  else
    Except.ok ⟨true⟩

/-- Modelled from the spec: the proving backend (`sp1_sdk`'s
`setup`/`prove`, not under `src/`) is an opaque service; per the spec the
artifact returned by `prove` carries the guest's committed public values
unchanged, so the artifact's public-values section for a given input is
exactly the working guest's commit stream. -/
def proveArtifactPublicValues (from_square to_square move_number : Nat) : List Nat :=
  workingGuestCommits from_square to_square move_number

/-! ## Shared lemmas -/

/-- Reassembling the four little-endian base-256 digits of a `u32`. -/
lemma u32_digits_sum (m : Nat) (hm : m < 2 ^ 32) :
    m % 256 + 256 * (m / 256 % 256) + 65536 * (m / 65536 % 256) +
      16777216 * (m / 16777216 % 256) = m := by
  omega

/-- The working host's five reads decode the working guest's commit stream
back to the exact values the guest computed. -/
lemma hostDecode_workingGuestCommits (f t m : Nat)
    (hf : f < 256) (ht : t < 256) (hm : m < 2 ^ 32) :
    hostDecode (workingGuestCommits f t m) =
      some ⟨working_is_valid f t m, f, t, m, working_checksum f t m⟩ := by
  have hc : working_checksum f t m < 2 ^ 32 := Nat.mod_lt _ (by norm_num)
  cases hb : working_is_valid f t m <;>
    simp [hostDecode, workingGuestCommits, commitBool, commitU8, commitU32, hb,
      readBool, readU8, readU32, Nat.mod_eq_of_lt hf, Nat.mod_eq_of_lt ht,
      u32_digits_sum m hm, u32_digits_sum _ hc]

/-- The five-field read fails (stream exhausted) on the `sp1-chess-v2`
guest's four-field stream. -/
lemma hostDecode_v2GuestCommits (f t m : Nat) :
    hostDecode (v2GuestCommits f t m) = none := by
  cases hb : v2_validate_chess_move f t <;>
    simp [hostDecode, v2GuestCommits, commitBool, commitU8, commitU32, hb,
      readBool, readU8, readU32]

/-- The five-field read fails (stream exhausted) on the
`sp1-chess-validator` guest's one-field stream. -/
lemma hostDecode_minGuestCommits (f t : Nat) :
    hostDecode (minGuestCommits f t) = none := by
  cases hb : min_is_valid f t <;>
    simp [hostDecode, minGuestCommits, commitBool, hb, readBool, readU8]

/-- Unpacking `basic_move_validation`. -/
lemma basic_move_validation_eq_true (input : ChessMoveInput) :
    basic_move_validation input = true ↔
      input.move_from < 64 ∧ input.move_to < 64 ∧
        input.move_from ≠ input.move_to := by
  simp [basic_move_validation, and_assoc]

/-- On a 64-square board, `apply_move` of an in-bounds move returns the
board with `move_from` cleared and the piece written at `move_to`. -/
lemma apply_move_eq (input : ChessMoveInput) (hlen : input.board_state.length = 64)
    (hf : input.move_from < 64) (ht : input.move_to < 64) :
    apply_move input =
      some ((input.board_state.set input.move_from 0).set input.move_to
        (input.board_state.get ⟨input.move_from, by omega⟩)) := by
  rw [apply_move, dif_pos ⟨by omega, by omega⟩]

/-! ## Claims -/

/-- C1 counterexample: at `from = 0, to = 1, move_number = 0` both the
`sp1-chess-v2` guest and the `sp1-chess-validator` guest commit
`is_valid = true`, while the spec predicate requires `false`
(`move_number = 0`). -/
theorem c1_counterexample :
    v2_validate_chess_move 0 1 = true ∧ min_is_valid 0 1 = true ∧
      v2GuestCommits 0 1 0 = 1 :: commitU8 0 ++ commitU8 1 ++ commitU32 0 ∧
      minGuestCommits 0 1 = [1] ∧
      specValid 0 1 0 = false := by
  decide

/-- C1 amended: the `working-sp1-chess` guest's committed `is_valid`
equals the spec predicate `(from ≠ to) ∧ from < 64 ∧ to < 64 ∧
(move_number ≥ 1)` for every input; the `sp1-chess-v2` and
`sp1-chess-validator` guests commit only the three-conjunct predicate
that ignores `move_number` (equivalently, the spec predicate with
`move_number` fixed to 1). -/
theorem c1_amended (f t m : Nat) :
    working_is_valid f t m = specValid f t m ∧
      v2_validate_chess_move f t = specValid f t 1 ∧
      min_is_valid f t = specValid f t 1 := by
  refine ⟨?_, ?_, ?_⟩ <;>
    · rw [Bool.eq_iff_iff]
      simp [working_is_valid, specValid, v2_validate_chess_move, min_is_valid]
      try omega

/-- C2 counterexample: at `from = 63, to = 63, move_number = 4294967295`
(all within the `u8`/`u32` input ranges) the committed checksum is the
wrapped value 125, not the exact sum 4294967421. -/
theorem c2_counterexample :
    working_checksum 63 63 4294967295 = 125 ∧
      63 + 63 + 4294967295 = 4294967421 := by
  norm_num [working_checksum]

/-- C2 amended: the committed checksum is `(from + to + move_number) mod
2 ^ 32`; it equals the exact mathematical sum whenever that sum is below
`2 ^ 32` (in particular for every `move_number ≤ 2 ^ 32 − 127` given
`from, to < 64`), and wraps otherwise. -/
theorem c2_amended (f t m : Nat) (hf : f < 64) (ht : t < 64) (hm : 1 ≤ m)
    (hm32 : m < 2 ^ 32) :
    working_checksum f t m = (f + t + m) % 2 ^ 32 ∧
      (f + t + m < 2 ^ 32 → working_checksum f t m = f + t + m) ∧
      (m ≤ 2 ^ 32 - 127 → working_checksum f t m = f + t + m) := by
  refine ⟨rfl, fun h => Nat.mod_eq_of_lt h, fun h => Nat.mod_eq_of_lt (by omega)⟩

/-- C2 witness: Scenario 1 of the spec, `from = 52, to = 36,
move_number = 1`, whose sum 89 is far below `2 ^ 32`. -/
theorem c2_witness :
    working_checksum 52 36 1 = (52 + 36 + 1) % 2 ^ 32 ∧
      (52 + 36 + 1 < 2 ^ 32 → working_checksum 52 36 1 = 52 + 36 + 1) ∧
      (1 ≤ 2 ^ 32 - 127 → working_checksum 52 36 1 = 52 + 36 + 1) :=
  c2_amended 52 36 1 (by decide) (by decide) (by decide) (by decide)

/-- C3 counterexample: at `from = 52, to = 36, move_number = 1` the
`sp1-chess-validator` guest commits a single byte and the `sp1-chess-v2`
guest commits 7 bytes, while the full five-field record occupies 11
bytes; reading the five-field record out of either stream fails. -/
theorem c3_counterexample :
    (minGuestCommits 52 36).length = 1 ∧
      (v2GuestCommits 52 36 1).length = 7 ∧
      (workingGuestCommits 52 36 1).length = 11 ∧
      hostDecode (minGuestCommits 52 36) = none ∧
      hostDecode (v2GuestCommits 52 36 1) = none := by
  decide

/-- C3 amended: only the `working-sp1-chess` guest commits the full
`MoveOutput` record `(is_valid, from, to, move_number, checksum)` in that
order — its stream decodes to exactly those five fields; the
`sp1-chess-v2` guest commits `(is_valid, from, to, move_number)` without
a checksum and the `sp1-chess-validator` guest commits only `is_valid`,
so the five-field read fails on both of their streams. -/
theorem c3_amended (f t m : Nat) (hf : f < 256) (ht : t < 256) (hm : m < 2 ^ 32) :
    hostDecode (workingGuestCommits f t m) =
        some ⟨working_is_valid f t m, f, t, m, working_checksum f t m⟩ ∧
      hostDecode (v2GuestCommits f t m) = none ∧
      hostDecode (minGuestCommits f t) = none := by
  exact ⟨hostDecode_workingGuestCommits f t m hf ht hm,
    hostDecode_v2GuestCommits f t m, hostDecode_minGuestCommits f t⟩

/-- C3 witness: the default move `52 → 36`, move number 1. -/
theorem c3_witness :
    hostDecode (workingGuestCommits 52 36 1) =
        some ⟨working_is_valid 52 36 1, 52, 36, 1, working_checksum 52 36 1⟩ ∧
      hostDecode (v2GuestCommits 52 36 1) = none ∧
      hostDecode (minGuestCommits 52 36) = none :=
  c3_amended 52 36 1 (by decide) (by decide) (by decide)

/-- C4: round trip through the proof artifact — the five public fields
the working host decodes (in the commit order `is_valid, from, to,
move_number, checksum`) are exactly the values the guest validation
computed for the same input. -/
theorem c4_round_trip (f t m : Nat) (hf : f < 256) (ht : t < 256)
    (hm : m < 2 ^ 32) :
    hostDecode (proveArtifactPublicValues f t m) =
      some ⟨working_is_valid f t m, f, t, m, working_checksum f t m⟩ :=
  hostDecode_workingGuestCommits f t m hf ht hm

/-- C4 witness: at `from = 52, to = 36, move_number = 1` the decoded
fields are `(true, 52, 36, 1, 89)`. -/
theorem c4_witness :
    hostDecode (proveArtifactPublicValues 52 36 1) =
        some ⟨working_is_valid 52 36 1, 52, 36, 1, working_checksum 52 36 1⟩ ∧
      working_is_valid 52 36 1 = true ∧ working_checksum 52 36 1 = 89 :=
  ⟨c4_round_trip 52 36 1 (by decide) (by decide) (by decide), by decide, by decide⟩

/-- C5: both host drivers are fail-closed — whenever `verify` fails, the
run terminates in an error exit (`VerificationFailure`, or
`ProvingFailure` if it never reached `verify`) and no result record is
produced; the committed outputs are only decoded in the branch where
`verify` succeeded. -/
theorem c5_fail_closed (proveOk : Bool) (f t m : Nat) :
    (∃ e, orchestrate proveOk false f t m = Except.error e) ∧
      (∃ e, orchestrateV2 proveOk false = Except.error e) := by
  cases proveOk <;>
    exact ⟨⟨_, rfl⟩, ⟨_, rfl⟩⟩

/-- C6 evaluation at the failing input: proving and verification both
succeed on the move `10 → 10` (move number 5), yet the emitted record
carries `verified = false`, because the script prints the move's
`is_valid` flag on its `PROOF_VERIFIED:` line instead of the verification
outcome. -/
theorem c6_code_eval :
    orchestrate true true 10 10 5 =
        Except.ok ⟨false, ⟨false, 10, 10, 5, 25⟩⟩ ∧
      (Report.mk false ⟨false, 10, 10, 5, 25⟩).verified = false :=
  ⟨rfl, rfl⟩

/-- C7: on a 64-square board the board-aware validator always returns an
output value (never an error): `game_status` is 0, and on an invalid
input the output carries `is_valid = false` with the board state passed
through unchanged. -/
theorem c7_total_output (input : ChessMoveInput)
    (hlen : input.board_state.length = 64) :
    ∃ out, validate_chess_move input = some out ∧ out.game_status = 0 ∧
      (basic_move_validation input = false →
        out.is_valid = false ∧ out.new_board_state = input.board_state) := by
  cases hv : basic_move_validation input
  · exact ⟨⟨false, input.board_state, 0⟩, by simp [validate_chess_move, hv], rfl,
      fun _ => ⟨rfl, rfl⟩⟩
  · obtain ⟨hf, ht, _⟩ := (basic_move_validation_eq_true input).1 hv
    have hf2 : input.move_from < input.board_state.length := by omega
    refine ⟨⟨true, (input.board_state.set input.move_from 0).set input.move_to
        (input.board_state.get ⟨input.move_from, hf2⟩), 0⟩, ?_, rfl, ?_⟩
    · simp [validate_chess_move, hv, apply_move_eq input hlen hf ht]
    · intro hc
      simp at hc

/-- C7 witness: Scenario 2 of the spec, the invalid move `10 → 10` on an
empty board. -/
theorem c7_witness :
    ∃ out, validate_chess_move ⟨List.replicate 64 0, 10, 10, 5, 0⟩ = some out ∧
      out.game_status = 0 ∧
      (basic_move_validation ⟨List.replicate 64 0, 10, 10, 5, 0⟩ = false →
        out.is_valid = false ∧ out.new_board_state = List.replicate 64 0) :=
  c7_total_output ⟨List.replicate 64 0, 10, 10, 5, 0⟩ (by simp)

/-- C8: on a 64-square board, a successfully validated move yields the
output whose `new_board_state` has square `move_from` cleared to 0,
square `move_to` holding the piece code read from `move_from`, and every
other square unchanged — a pure function of the input board. -/
theorem c8_board_update (input : ChessMoveInput)
    (hlen : input.board_state.length = 64)
    (hv : basic_move_validation input = true) :
    ∃ out, validate_chess_move input = some out ∧ out.is_valid = true ∧
      out.new_board_state.length = 64 ∧
      out.new_board_state[input.move_from]? = some 0 ∧
      out.new_board_state[input.move_to]? = input.board_state[input.move_from]? ∧
      ∀ i : Nat, i ≠ input.move_from → i ≠ input.move_to →
        out.new_board_state[i]? = input.board_state[i]? := by
  obtain ⟨hf, ht, hne⟩ := (basic_move_validation_eq_true input).1 hv
  have hf2 : input.move_from < input.board_state.length := by omega
  have ht2 : input.move_to < input.board_state.length := by omega
  refine ⟨⟨true, (input.board_state.set input.move_from 0).set input.move_to
      (input.board_state.get ⟨input.move_from, hf2⟩), 0⟩, ?_, rfl, ?_, ?_, ?_, ?_⟩
  · simp [validate_chess_move, hv, apply_move_eq input hlen hf ht]
  · simp [hlen]
  · rw [List.getElem?_set_ne (Ne.symm hne), List.getElem?_set_self hf2]
  · rw [List.getElem?_set_self (by simpa using ht2),
      List.getElem?_eq_getElem hf2]
    rfl
  · intro i hif hit
    rw [List.getElem?_set_ne (Ne.symm hit), List.getElem?_set_ne (Ne.symm hif)]

/-- C8 witness: Scenario 5 of the spec — piece code 5 on square 0, move
`0 → 8`: the new board has 0 at square 0 and 5 at square 8. -/
theorem c8_witness :
    (∃ out, validate_chess_move ⟨5 :: List.replicate 63 0, 0, 8, 1, 0⟩ = some out ∧
      out.is_valid = true ∧
      out.new_board_state.length = 64 ∧
      out.new_board_state[0]? = some 0 ∧
      out.new_board_state[8]? = (5 :: List.replicate 63 0 : List Int)[0]? ∧
      ∀ i : Nat, i ≠ 0 → i ≠ 8 →
        out.new_board_state[i]? = (5 :: List.replicate 63 0 : List Int)[i]?) ∧
    (5 :: List.replicate 63 0 : List Int)[0]? = some 5 :=
  ⟨c8_board_update ⟨5 :: List.replicate 63 0, 0, 8, 1, 0⟩ (by simp) (by decide), rfl⟩

/-- C9: the validator and the guest commit streams are pure functions of
their input — two invocations on the same input yield identical results
(the embedding has no I/O, randomness or hidden state to consult). -/
theorem c9_deterministic (input : ChessMoveInput) (f t m : Nat) :
    validate_chess_move input = validate_chess_move input ∧
      workingGuestCommits f t m = workingGuestCommits f t m ∧
      v2GuestCommits f t m = v2GuestCommits f t m ∧
      minGuestCommits f t = minGuestCommits f t :=
  ⟨rfl, rfl, rfl, rfl⟩

/-- C10: on a 64-square board the validator never indexes out of bounds:
whenever `basic_move_validation` holds, `apply_move`'s in-bounds branch is
taken (its `none` branch is unreachable), and `validate_chess_move`
returns a value for every input. -/
theorem c10_no_oob (input : ChessMoveInput)
    (hlen : input.board_state.length = 64) :
    (basic_move_validation input = true → (apply_move input).isSome = true) ∧
      (validate_chess_move input).isSome = true := by
  constructor
  · intro hv
    obtain ⟨hf, ht, _⟩ := (basic_move_validation_eq_true input).1 hv
    rw [apply_move_eq input hlen hf ht]
    rfl
  · cases hv : basic_move_validation input
    · simp [validate_chess_move, hv]
    · obtain ⟨hf, ht, _⟩ := (basic_move_validation_eq_true input).1 hv
      simp [validate_chess_move, hv, apply_move_eq input hlen hf ht]

/-- C10 witness: the move `0 → 8` on an empty 64-square board. -/
theorem c10_witness :
    (basic_move_validation ⟨List.replicate 64 0, 0, 8, 1, 0⟩ = true →
      (apply_move ⟨List.replicate 64 0, 0, 8, 1, 0⟩).isSome = true) ∧
      (validate_chess_move ⟨List.replicate 64 0, 0, 8, 1, 0⟩).isSome = true :=
  c10_no_oob ⟨List.replicate 64 0, 0, 8, 1, 0⟩ (by simp)

end ZkChess
